import Mathlib

/-!
Verification of the parameter-planning layer of mvsfunc (mvsfunc.py).

The development shallowly embeds the decision logic of `Depth`, `ToRGB`,
`ToYUV`, `BM3D`, `GetMatrix` and `SetColorSpace` from mvsfunc.py.  Clips are
modelled as a record of a video format, dimensions, frame properties and a
symbolic pixel tree; every call into an external plugin (`z.Depth`,
`fmtc.bitdepth`, `fmtc.resample`, `fmtc.matrix`, `fmtc.matrix2020cl`,
`std.ShufflePlanes`, `std.BlankClip`, `bm3d.Basic`, `bm3d.VBasic`,
`bm3d.VAggregate`) is recorded as a node of that tree, so a theorem can
inspect exactly which engine calls a function performs and with which
arguments.  Python exceptions are modelled by `Except String`; an error
result corresponds to an exception raised before any further engine call,
following the source order.  Python sample types are kept as the numeric
codes of the source (`vs.INTEGER = 0`, `vs.FLOAT = 1`) and Python floats are
modelled as rationals.
-/

namespace Mvs

/-- VapourSynth color families (vs.RGB, vs.YUV, vs.GRAY, vs.YCOCG, vs.COMPAT). -/
inductive CF : Type where
  | RGB : CF
  | YUV : CF
  | GRAY : CF
  | YCOCG : CF
  | COMPAT : CF
deriving DecidableEq, Repr

/-- A VapourSynth video format: color family, bit depth, sample type
(0 = integer, 1 = float) and chroma subsampling (log2 factors). -/
structure VFormat : Type where
  color_family : CF
  bits_per_sample : Nat
  sample_type : Nat
  subsampling_w : Nat
  subsampling_h : Nat
deriving DecidableEq, Repr

/-- The color-space related frame properties touched by `SetColorSpace`. -/
structure FrameProps : Type where
  chromaLocation : Option Int
  colorRange : Option Int
  primaries : Option Int
  matrix : Option Int
  transfer : Option Int
deriving DecidableEq, Repr

/-- Frame properties of a freshly sourced clip: none set. -/
def emptyProps : FrameProps :=
  { chromaLocation := none, colorRange := none, primaries := none,
    matrix := none, transfer := none }

/-- A dither argument / resolved dither value: either a fmtc `dmode` integer
or a z.Depth dither name, exactly as the Python value that flows through
`Depth`. -/
inductive DitherV : Type where
  | i : Int → DitherV
  | s : String → DitherV
deriving DecidableEq, Repr

/-- A `matrix` argument of `GetMatrix`: int code or name string. -/
inductive MatArg : Type where
  | i : Int → MatArg
  | s : String → MatArg
deriving DecidableEq, Repr

/-- The value returned by `GetMatrix`: int id or name string. -/
inductive MatVal : Type where
  | i : Int → MatVal
  | s : String → MatVal
deriving DecidableEq, Repr

/-- Symbolic pixel content.  Each constructor except `source` records one
invocation of an external pixel/denoise engine together with the arguments
the mvsfunc code passes to it. -/
inductive Pix : Type where
  | source : Nat → Pix
  | zDepth : Pix → DitherV → Nat → Int → Bool → Bool → Pix
  | fmtcBitdepth : Pix → Int → Nat → Bool → Bool → DitherV →
      Option Rat → Option Rat → Option Bool → Option Bool → Pix
  | fmtcResample : Pix → String → Option Int → Option Rat → Option Rat →
      String → List Nat → Bool → Bool → Option String → Pix
  | fmtcMatrix : Pix → Option String → Bool → Bool → Option (List Rat) → CF → Pix
  | fmtcMatrix2020cl : Pix → Bool → Pix
  | shufflePlanes : List Pix → List Nat → CF → Pix
  | blankClip : Pix → Int → Int → Rat → Pix
  | bm3dBasic : Pix → Option Pix → Option String → List Rat →
      Option Int → Option Int → Option Int → Option Int → Option Int →
      Option Rat → Option Rat → Int → Pix
  | bm3dVBasic : Pix → Option Pix → Option String → List Rat → Int →
      Option Int → Option Int → Option Int → Option Int → Option Int →
      Option Int → Option Int → Option Int → Option Rat → Option Rat → Int → Pix
  | bm3dVAggregate : Pix → Int → Nat → Pix

instance : Inhabited Pix := ⟨Pix.source 0⟩

/-- A VapourSynth clip: format, dimensions, frame properties and symbolic
pixel content. -/
structure Clip : Type where
  format : VFormat
  width : Int
  height : Int
  pix : Pix
  props : FrameProps

instance : Inhabited Clip :=
  ⟨{ format := { color_family := CF.YUV, bits_per_sample := 8, sample_type := 0,
                 subsampling_w := 0, subsampling_h := 0 },
     width := 0, height := 0, pix := Pix.source 0, props := emptyProps }⟩

/-! ### Wrappers for the external engines

Each wrapper records the call in the pixel tree and computes the format of
the returned clip per the plugin's documented behaviour. -/

/-- `core.z.Depth(clip, dither, sample, depth, fullrange_in, fullrange_out)`. -/
def zDepthCall (c : Clip) (dither : DitherV) (sample : Nat) (depth : Int)
    (fullrange_in fullrange_out : Bool) : Clip :=
  { format := { c.format with bits_per_sample := depth.toNat, sample_type := sample },
    width := c.width, height := c.height,
    pix := Pix.zDepth c.pix dither sample depth fullrange_in fullrange_out,
    props := c.props }

/-- `core.fmtc.bitdepth(clip, bits, flt, fulls, fulld, dmode, ampo, ampn, dyn, staticnoise)`. -/
def fmtcBitdepthCall (c : Clip) (bits : Int) (flt : Nat) (fulls fulld : Bool)
    (dmode : DitherV) (ampo ampn : Option Rat) (dyn staticnoise : Option Bool) : Clip :=
  { format := { c.format with bits_per_sample := bits.toNat, sample_type := flt },
    width := c.width, height := c.height,
    pix := Pix.fmtcBitdepth c.pix bits flt fulls fulld dmode ampo ampn dyn staticnoise,
    props := c.props }

/-- Subsampling factor (1, 2, 4) to log2 value. -/
def ssLog2 (n : Nat) : Nat :=
  if n = 4 then 2 else if n = 2 then 1 else 0

/-- Chroma subsampling of the clip returned by `fmtc.resample` for the css
strings this code passes ("444" or a two-digit factor string). -/
def cssToSS (css : String) : Nat × Nat :=
  if css = "444" then (0, 0)
  else
    match css.toList with
    | c0 :: c1 :: _ => (ssLog2 (c0.toNat - 48), ssLog2 (c1.toNat - 48))
    | _ => (0, 0)

/-- `core.fmtc.resample(clip, kernel, taps, a1, a2, css, planes, fulls, fulld, cplace)`. -/
def fmtcResampleCall (c : Clip) (kernel : String) (taps : Option Int)
    (a1 a2 : Option Rat) (css : String) (planes : List Nat)
    (fulls fulld : Bool) (cplace : Option String) : Clip :=
  { format := { c.format with subsampling_w := (cssToSS css).1, subsampling_h := (cssToSS css).2 },
    width := c.width, height := c.height,
    pix := Pix.fmtcResample c.pix kernel taps a1 a2 css planes fulls fulld cplace,
    props := c.props }

/-- `core.fmtc.matrix(clip, mat, fulls, fulld, coef, col_fam)`. -/
def fmtcMatrixCall (c : Clip) (mat : Option String) (fulls fulld : Bool)
    (coef : Option (List Rat)) (col_fam : CF) : Clip :=
  { format := { c.format with color_family := col_fam },
    width := c.width, height := c.height,
    pix := Pix.fmtcMatrix c.pix mat fulls fulld coef col_fam,
    props := c.props }

/-- `core.fmtc.matrix2020cl(clip, full)`: converts RGB to the
constant-luminance 2020 YUV representation or back. -/
def fmtcMatrix2020clCall (c : Clip) (full : Bool) : Clip :=
  { format := { c.format with
      color_family := if c.format.color_family = CF.RGB then CF.YUV else CF.RGB },
    width := c.width, height := c.height,
    pix := Pix.fmtcMatrix2020cl c.pix full,
    props := c.props }

/-- `core.std.ShufflePlanes(clips, planes, cf)`.  The format of the result
takes depth/sample from the first clip; all call sites of this repository
build 4:4:4 or single-plane outputs whose subsampling is not consumed
further, so it is recorded as 0/0. -/
def shufflePlanesCall (clips : List Clip) (planes : List Nat) (cf : CF) : Clip :=
  let c0 := clips.headI
  { format := { color_family := cf, bits_per_sample := c0.format.bits_per_sample,
                sample_type := c0.format.sample_type,
                subsampling_w := 0, subsampling_h := 0 },
    width := c0.width, height := c0.height,
    pix := Pix.shufflePlanes (clips.map Clip.pix) planes cf,
    props := c0.props }

/-- `core.std.BlankClip(clip, width, height, color)`. -/
def blankClipCall (c : Clip) (width height : Int) (color : Rat) : Clip :=
  { format := c.format, width := width, height := height,
    pix := Pix.blankClip c.pix width height color, props := c.props }

/-- `core.bm3d.Basic(clip, ref, profile, sigma, block_size, block_step,
group_size, bm_range, bm_step, th_mse, hard_thr, matrix)`. -/
def bm3dBasicCall (c : Clip) (ref : Option Clip) (profile : Option String)
    (sigma : List Rat) (block_size block_step group_size bm_range bm_step : Option Int)
    (th_mse hard_thr : Option Rat) (matrix : Int) : Clip :=
  { format := c.format, width := c.width, height := c.height,
    pix := Pix.bm3dBasic c.pix (ref.map Clip.pix) profile sigma
      block_size block_step group_size bm_range bm_step th_mse hard_thr matrix,
    props := c.props }

/-- `core.bm3d.VBasic(clip, ref, profile, sigma, radius, block_size,
block_step, group_size, bm_range, bm_step, ps_num, ps_range, ps_step,
th_mse, hard_thr, matrix)`. -/
def bm3dVBasicCall (c : Clip) (ref : Option Clip) (profile : Option String)
    (sigma : List Rat) (radius : Int)
    (block_size block_step group_size bm_range bm_step ps_num ps_range ps_step : Option Int)
    (th_mse hard_thr : Option Rat) (matrix : Int) : Clip :=
  { format := c.format, width := c.width, height := c.height,
    pix := Pix.bm3dVBasic c.pix (ref.map Clip.pix) profile sigma radius
      block_size block_step group_size bm_range bm_step ps_num ps_range ps_step
      th_mse hard_thr matrix,
    props := c.props }

/-- `core.bm3d.VAggregate(clip, radius, sample)`: aggregates the multi-frame
estimate back to one frame per input frame, at 16-bit integer or 32-bit
float according to `sample`. -/
def bm3dVAggregateCall (c : Clip) (radius : Int) (sample : Nat) : Clip :=
  { format := { c.format with sample_type := sample, bits_per_sample := if sample = 1 then 32 else 16 },
    width := c.width, height := c.height,
    pix := Pix.bm3dVAggregate c.pix radius sample,
    props := c.props }

/-! ### SetColorSpace -/

/-- An argument of `SetColorSpace`: Python `False` (delete the property) or
an int (set it).  `None`/`True` (do nothing) is `Option.none` at the call. -/
inductive PropArg : Type where
  | del : PropArg
  | set : Int → PropArg
deriving DecidableEq, Repr

/-- Apply one `SetColorSpace` argument to one property slot. -/
def applyPropArg (cur : Option Int) (a : Option PropArg) : Option Int :=
  match a with
  | none => cur
  | some PropArg.del => none
  | some (PropArg.set v) => some v

/-- Does a `SetColorSpace` int argument fall outside its valid range? -/
def propRangeBad (a : Option PropArg) (lo hi : Int) : Bool :=
  match a with
  | some (PropArg.set v) => decide (v < lo) || decide (hi < v)
  | _ => false

/-- `SetColorSpace(clip, ChromaLocation, ColorRange, Primaries, Matrix,
Transfer)` from mvsfunc.py: tags/deletes the color-space frame properties.
The int-range validation of `ChromaLocation`/`ColorRange` is kept. -/
def SetColorSpace (clip : Clip) (chromaLocation colorRange primaries matrix transfer :
    Option PropArg) : Except String Clip := do
  let funcName := "SetColorSpace"
  if propRangeBad chromaLocation 0 5 then
    throw (funcName ++ ": valid range of \"ChromaLocation\" is [0, 5]!")
  else if propRangeBad colorRange 0 1 then
    throw (funcName ++ ": valid range of \"ColorRange\" is [0, 1]!")
  else
    return { clip with props :=
      { chromaLocation := applyPropArg clip.props.chromaLocation chromaLocation,
        colorRange := applyPropArg clip.props.colorRange colorRange,
        primaries := applyPropArg clip.props.primaries primaries,
        matrix := applyPropArg clip.props.matrix matrix,
        transfer := applyPropArg clip.props.transfer transfer } }

/-! ### GetMatrix -/

/-- ASCII lowercase of one character (Python `str.lower` on the ASCII
names used by this code). -/
def charLower (c : Char) : Char :=
  if 65 ≤ c.toNat ∧ c.toNat ≤ 90 then Char.ofNat (c.toNat + 32) else c

/-- ASCII lowercase of a string (Python `str.lower` on the ASCII names used
by this code). -/
def strLower (s : String) : String := ⟨s.data.map charLower⟩

/-- Python `matrix == n or matrix == s1` for an int-or-str `matrix`. -/
def matEq1 (m : MatArg) (n : Int) (s1 : String) : Bool :=
  match m with
  | MatArg.i k => k == n
  | MatArg.s s => s == s1

/-- Python `matrix == n or matrix == s1 or matrix == s2`. -/
def matEq2 (m : MatArg) (n : Int) (s1 s2 : String) : Bool :=
  match m with
  | MatArg.i k => k == n
  | MatArg.s s => s == s1 || s == s2

/-- The name/int conversion table of `GetMatrix` (the long elif chain),
after lowercasing a string argument. -/
def convertMatrixArg (m : MatArg) (id : Bool) : Except String MatVal :=
  let m := match m with
    | MatArg.s s => MatArg.s (strLower s)
    | MatArg.i n => MatArg.i n
  if matEq1 m 0 "rgb" then .ok (if id then MatVal.i 0 else MatVal.s "RGB")
  else if matEq2 m 1 "709" "bt709" then .ok (if id then MatVal.i 1 else MatVal.s "709")
  else if matEq1 m 2 "unspecified" then .ok (if id then MatVal.i 2 else MatVal.s "Unspecified")
  else if matEq1 m 4 "fcc" then .ok (if id then MatVal.i 4 else MatVal.s "FCC")
  else if matEq1 m 5 "bt470bg" then .ok (if id then MatVal.i 5 else MatVal.s "601")
  else if matEq2 m 6 "601" "smpte170m" then .ok (if id then MatVal.i 6 else MatVal.s "601")
  else if matEq2 m 7 "240" "smpte240m" then .ok (if id then MatVal.i 7 else MatVal.s "240")
  else if matEq2 m 8 "ycgco" "ycocg" then .ok (if id then MatVal.i 8 else MatVal.s "YCgCo")
  else if matEq2 m 9 "2020" "bt2020nc" then .ok (if id then MatVal.i 9 else MatVal.s "2020")
  else if matEq2 m 10 "2020cl" "bt2020c" then .ok (if id then MatVal.i 10 else MatVal.s "2020cl")
  else if matEq2 m 100 "opp" "opponent" then .ok (if id then MatVal.i 100 else MatVal.s "OPP")
  else .error "GetMatrix: Unsupported matrix specified!"

/-- The resolved `dIsRGB` flag of `GetMatrix` (defaults to "not RGB input"). -/
def getMatrixDIsRGB (clip : Clip) (dIsRGB : Option Bool) : Bool :=
  match dIsRGB with
  | none => ! decide (clip.format.color_family = CF.RGB)
  | some b => b

/-- The resolution-level flags of `GetMatrix` (the noneD/SD/HD/UHD elif
chain), as predicates on the clip. -/
def levelSD (c : Clip) : Prop :=
  ¬(c.width ≤ 0 ∨ c.height ≤ 0) ∧ (c.width ≤ 1024 ∧ c.height ≤ 576)

/-- HD level of `GetMatrix`: not noneD, not SD, within 2048x1536. -/
def levelHD (c : Clip) : Prop :=
  ¬(c.width ≤ 0 ∨ c.height ≤ 0) ∧ ¬(c.width ≤ 1024 ∧ c.height ≤ 576) ∧
    (c.width ≤ 2048 ∧ c.height ≤ 1536)

/-- UHD level of `GetMatrix`: not noneD, not SD, not HD. -/
def levelUHD (c : Clip) : Prop :=
  ¬(c.width ≤ 0 ∨ c.height ≤ 0) ∧ ¬(c.width ≤ 1024 ∧ c.height ≤ 576) ∧
    ¬(c.width ≤ 2048 ∧ c.height ≤ 1536)

instance (c : Clip) : Decidable (levelSD c) := by unfold levelSD; infer_instance
instance (c : Clip) : Decidable (levelHD c) := by unfold levelHD; infer_instance
instance (c : Clip) : Decidable (levelUHD c) := by unfold levelUHD; infer_instance

/-- `GetMatrix(clip, matrix, dIsRGB, id)` from mvsfunc.py: normalizes a
matrix specifier and, when unspecified, picks a default from the color
family and the resolution level of the clip. -/
def GetMatrix (clip : Clip) (matrix : Option MatArg) (dIsRGB : Option Bool)
    (id : Bool) : Except String MatVal := do
  let funcName := "GetMatrix"
  let sColorFamily := clip.format.color_family
  if sColorFamily = CF.COMPAT then
    throw (funcName ++ ": Color family *COMPAT* is not supported!")
  let dRGB := getMatrixDIsRGB clip dIsRGB
  -- Convert to string format
  let mv ← match matrix with
    | none => pure (MatVal.s "Unspecified")
    | some m => convertMatrixArg m id
  -- If unspecified, automatically determine it based on color family and
  -- resolution level
  let mv := if mv = MatVal.i 2 ∨ mv = MatVal.s "Unspecified" then
      (if dRGB = true ∧ sColorFamily = CF.RGB then
        (if id then MatVal.i 0 else MatVal.s "RGB")
      else if sColorFamily = CF.YCOCG then
        (if id then MatVal.i 8 else MatVal.s "YCgCo")
      else if levelSD clip then (if id then MatVal.i 6 else MatVal.s "601")
      else if levelUHD clip then (if id then MatVal.i 9 else MatVal.s "2020")
      else (if id then MatVal.i 1 else MatVal.s "709"))
    else mv
  return mv

/-! ### Depth -/

/-- Resolved input range of `Depth` when `fulls` is unset: limited range is
assumed for YUV and Gray input, full range otherwise. -/
def depthDefaultFulls (cf : CF) : Bool :=
  if cf = CF.YUV ∨ cf = CF.GRAY then false else true

/-- The output-format block shared verbatim by `Depth`, `ToRGB`, `ToYUV` and
`BM3D`: resolve the output depth and sample type from the `depth`/`sample`
arguments and validate them. -/
def resolveTargetFormat (funcName : String) (defBits defSType : Nat)
    (depth sample : Option Int) : Except String (Int × Nat) := do
  let dbitPS : Int := match depth with
    | none => (defBits : Int)
    | some d => d
  let dSType : Nat ← match sample with
    | none =>
      match depth with
      | none => pure defSType
      | some _ => pure (if dbitPS ≥ 32 then 1 else 0)
    | some s =>
      if s ≠ 0 ∧ s ≠ 1 then
        throw (funcName ++ ": \"sample\" must be either 0(vs.INTEGER) or 1(vs.FLOAT)!")
      else pure s.toNat
  if dSType = 0 ∧ (dbitPS < 8 ∨ dbitPS > 16) then
    throw (funcName ++ ": " ++ toString dbitPS ++ "-bit integer output is not supported!")
  if dSType = 1 ∧ (dbitPS ≠ 16 ∧ dbitPS ≠ 32) then
    throw (funcName ++ ": " ++ toString dbitPS ++ "-bit float output is not supported!")
  return (dbitPS, dSType)

/-- The backend choice of `Depth`: when `useZ` is unset it defaults to
z.Depth iff full range is involved for an integer format; afterwards
13/15-bit integer or sub-32-bit float involvement switches to z.Depth
unconditionally. -/
def depthUseZResolve (sbitPS sSType : Nat) (dbitPS : Int) (dSType : Nat)
    (fulls fulld : Bool) (useZ : Option Bool) : Bool :=
  let u : Bool := match useZ with
    | none => (decide (sSType = 0) && fulls) || (decide (dSType = 0) && fulld)
    | some b => b
  let u := if sSType = 0 ∧ (sbitPS = 13 ∨ sbitPS = 15) then true else u
  let u := if dSType = 0 ∧ (dbitPS = 13 ∨ dbitPS = 15) then true else u
  if (sSType = 1 ∧ sbitPS < 32) ∨ (dSType = 1 ∧ dbitPS < 32) then true else u

/-- Default dither choice of `Depth` (the `dither is None` branch of the
source). -/
def depthDitherDefault (sbitPS : Nat) (dbitPS : Int) (fulls fulld : Bool)
    (useZ : Bool) : DitherV :=
  if dbitPS = 32 ∨ (dbitPS ≥ (sbitPS : Int) ∧ fulld = fulls ∧ fulld = false) then
    (if useZ then DitherV.s "none" else DitherV.i 1)
  else
    (if useZ then DitherV.s "error_diffusion" else DitherV.i 3)

/-- The dither validation and cross-backend translation block of `Depth`,
returning the resolved dither value together with the possibly updated
`ampn`. -/
def depthDitherResolve (dither : Option DitherV) (ampn : Option Rat)
    (useZ : Bool) (sbitPS : Nat) (dbitPS : Int) (fulls fulld : Bool) :
    Except String (DitherV × Option Rat) := do
  match dither with
  | none => return (depthDitherDefault sbitPS dbitPS fulls fulld useZ, ampn)
  | some dv =>
    let dv ← match dv with
      | DitherV.s s =>
        let s := strLower s
        if s ≠ "none" ∧ s ≠ "ordered" ∧ s ≠ "random" ∧ s ≠ "error_diffusion" then
          throw "Depth: Unsupported \"dither\" specified!"
        else pure (DitherV.s s)
      | DitherV.i n =>
        if n < 0 ∨ n > 7 then throw "Depth: Unsupported \"dither\" specified!"
        else pure (DitherV.i n)
    match useZ, dv with
    | true, DitherV.i n =>
      if n = 0 then return (DitherV.s "ordered", ampn)
      else if n = 1 ∨ n = 2 then
        return ((match ampn with
          | some a => if a > 0 then DitherV.s "random" else DitherV.s "none"
          | none => DitherV.s "none"), ampn)
      else return (DitherV.s "error_diffusion", ampn)
    | false, DitherV.s s =>
      if s = "none" then return (DitherV.i 1, ampn)
      else if s = "ordered" then return (DitherV.i 0, ampn)
      else if s = "random" then
        match ampn with
        | none => return (DitherV.i 1, some 1)
        | some a => if a > 0 then return (DitherV.i 1, ampn) else return (DitherV.i 3, ampn)
      else return (DitherV.i 3, ampn)
    | true, DitherV.s s => return (DitherV.s s, ampn)
    | false, DitherV.i n => return (DitherV.i n, ampn)

/-- The `ampo` defaulting of `Depth` (fmtc backend only): 1.5 for ordered
dither, else 1. -/
def depthAmpoResolve (useZ : Bool) (ampo : Option Rat) (dither : DitherV) : Option Rat :=
  if useZ then ampo
  else
    match ampo with
    | none => some (if dither = DitherV.i 0 then (3 / 2 : Rat) else 1)
    | some a => some a

/-- `Depth(input, depth, sample, fulls, fulld, dither, useZ, ampo, ampn,
dyn, staticnoise)` from mvsfunc.py: bit depth conversion with dithering,
dispatching to z.Depth or fmtc.bitdepth. -/
def Depth (input : Clip) (depth sample : Option Int) (fullsArg fulldArg : Option Bool)
    (ditherArg : Option DitherV) (useZArg : Option Bool) (ampoArg ampnArg : Option Rat)
    (dyn staticnoise : Option Bool) : Except String Clip := do
  let funcName := "Depth"
  let sFormat := input.format
  if sFormat.color_family = CF.COMPAT then
    throw (funcName ++ ": Color family *COMPAT* is not supported!")
  let sbitPS := sFormat.bits_per_sample
  let sSType := sFormat.sample_type
  let fulls := fullsArg.getD (depthDefaultFulls sFormat.color_family)
  let clip ← match fullsArg with
    | none => pure input
    | some b =>
      SetColorSpace input none (some (PropArg.set (if b then 0 else 1))) none none none
  let (dbitPS, dSType) ← resolveTargetFormat funcName sbitPS sSType depth sample
  let fulld := fulldArg.getD fulls
  let useZ := depthUseZResolve sbitPS sSType dbitPS dSType fulls fulld useZArg
  let (dither, ampn) ← depthDitherResolve ditherArg ampnArg useZ sbitPS dbitPS fulls fulld
  let ampo := depthAmpoResolve useZ ampoArg dither
  -- Skip processing if not needed
  if dSType = sSType ∧ dbitPS = (sbitPS : Int) ∧ (sSType = 1 ∨ fulld = fulls) then
    return clip
  -- Apply conversion
  let clip :=
    if useZ then zDepthCall clip dither dSType dbitPS fulls fulld
    else fmtcBitdepthCall clip dbitPS dSType fulls fulld dither ampo ampn dyn staticnoise
  let clip ← SetColorSpace clip none (some (PropArg.set (if fulld then 0 else 1))) none none none
  return clip

/-! ### ToRGB / ToYUV -/

/-- Resolved range of ToRGB/ToYUV/BM3D when `full` is unset: full range for
a GRAY/YUV/YCoCg clip whose matrix is RGB, YCgCo or OPP; otherwise limited
for YUV/Gray and full for the rest. -/
def resolveFullsFromMatrix (cf : CF) (matrix : String) : Bool :=
  if (cf = CF.GRAY ∨ cf = CF.YUV ∨ cf = CF.YCOCG) ∧
      (matrix = "RGB" ∨ matrix = "YCgCo" ∨ matrix = "OPP") then true
  else if cf = CF.YUV ∨ cf = CF.GRAY then false
  else true

/-- The `matrix is not None` prologue of ToRGB/ToYUV: resolve the id and tag
(or untag, for ids above 10) the `_Matrix` frame property. -/
def tagMatrixProp (input : Clip) (matrix : Option MatArg) (dIsRGB : Bool) :
    Except String Clip := do
  match matrix with
  | none => pure input
  | some _ =>
    let mid ← GetMatrix input matrix (some dIsRGB) true
    let midI : Int := match mid with
      | MatVal.i n => n
      | MatVal.s _ => 0
    SetColorSpace input none none none
      (if midI > 10 then some PropArg.del else some (PropArg.set midI)) none

/-- The internal-precision block of ToRGB/ToYUV: float is processed at
32-bit; integer at the larger of the two depths snapped to the fmtc.matrix
set (11 to 12, 13..15 to 16), forced to 16-bit when chroma resampling is
needed. -/
def internalPrecision (sbitPS : Nat) (dbitPS : Int) (pSType : Nat)
    (resampleNeeded : Bool) : Int :=
  if pSType = 1 then 32
  else
    let p : Int := max (sbitPS : Int) dbitPS
    let p := if p = 11 then 12 else if 12 < p ∧ p < 16 then 16 else p
    if resampleNeeded then 16 else p

/-- The kernel/a1/a2 defaulting of ToRGB/ToYUV (Catmull-Rom bicubic). -/
def resolveKernel (kernel : Option String) (a1 a2 : Option Rat) :
    String × Option Rat × Option Rat :=
  match kernel with
  | none => ("bicubic",
      (if a1 = none ∧ a2 = none then some 0 else a1),
      (if a1 = none ∧ a2 = none then some (1 / 2 : Rat) else a2))
  | some k => (k, a1, a2)

/-- `ToRGB(input, matrix, depth, sample, full, dither, useZ, ampo, ampn,
dyn, staticnoise, kernel, taps, a1, a2, cplace)` from mvsfunc.py: convert
any color space to full range RGB. -/
def ToRGB (input : Clip) (matrix : Option MatArg) (depth sample : Option Int)
    (full : Option Bool) (dither : Option DitherV) (useZ : Option Bool)
    (ampo ampn : Option Rat) (dyn staticnoise : Option Bool)
    (kernel : Option String) (taps : Option Int) (a1 a2 : Option Rat)
    (cplace : Option String) : Except String Clip := do
  let funcName := "ToRGB"
  let clip ← tagMatrixProp input matrix true
  let mv ← GetMatrix input matrix (some true) false
  let matrixS : String := match mv with
    | MatVal.s s => s
    | MatVal.i _ => ""
  let sFormat := input.format
  if sFormat.color_family = CF.COMPAT then
    throw (funcName ++ ": Color family *COMPAT* is not supported!")
  let sbitPS := sFormat.bits_per_sample
  let sSType := sFormat.sample_type
  let sHSubS : Nat := 2 ^ sFormat.subsampling_w
  let sVSubS : Nat := 2 ^ sFormat.subsampling_h
  let fulls := match full with
    | none => resolveFullsFromMatrix sFormat.color_family matrixS
    | some b => b
  let (dbitPS, dSType) ← resolveTargetFormat funcName sbitPS sSType depth sample
  let fulld := true
  let pSType := max sSType dSType
  let pbitPS := internalPrecision sbitPS dbitPS pSType (sHSubS ≠ 1 ∨ sVSubS ≠ 1)
  let (kernel, a1, a2) := resolveKernel kernel a1 a2
  -- Conversion
  if sFormat.color_family = CF.RGB then
    Depth clip (some dbitPS) (some (dSType : Int)) (some fulls) (some fulld)
      dither useZ ampo ampn dyn staticnoise
  else if sFormat.color_family = CF.GRAY then do
    let clip ← Depth clip (some dbitPS) (some (dSType : Int)) (some fulls) (some fulld)
      dither useZ ampo ampn dyn staticnoise
    return shufflePlanesCall [clip, clip, clip] [0, 0, 0] CF.RGB
  else do
    let clip ← Depth clip (some pbitPS) (some (pSType : Int)) (some fulls) (some fulls)
      dither useZ ampo ampn dyn staticnoise
    let clip := if sHSubS ≠ 1 ∨ sVSubS ≠ 1 then
        fmtcResampleCall clip kernel taps a1 a2 "444" [2, 3, 3] fulls fulls cplace
      else clip
    let clip :=
      if matrixS = "OPP" then
        fmtcMatrixCall clip none fulls fulld
          (some [1, 1, 2/3, 0, 1, 0, -4/3, 0, 1, -1, 2/3, 0]) CF.RGB
      else if matrixS = "2020cl" then
        fmtcMatrix2020clCall clip fulls
      else
        fmtcMatrixCall clip (some matrixS) fulls fulld none CF.RGB
    Depth clip (some dbitPS) (some (dSType : Int)) (some fulld) (some fulld)
      dither useZ ampo ampn dyn staticnoise

/-- The css normalization of ToYUV/BM3D: presets to two-digit factor
strings, then the two digits.  A css string shorter than two characters
raises, as the Python indexing does. -/
def resolveCss (css : String) : Except String (Nat × Nat × String) :=
  let c := if css = "444" ∨ css = "4:4:4" then "11"
    else if css = "440" ∨ css = "4:4:0" then "12"
    else if css = "422" ∨ css = "4:2:2" then "21"
    else if css = "420" ∨ css = "4:2:0" then "22"
    else if css = "411" ∨ css = "4:1:1" then "41"
    else if css = "410" ∨ css = "4:1:0" then "42"
    else css
  match c.toList with
  | c0 :: c1 :: _ => .ok (c0.toNat - 48, c1.toNat - 48, c)
  | _ => .error "IndexError: string index out of range"

/-- `ToYUV(input, matrix, css, depth, sample, full, dither, useZ, ampo,
ampn, dyn, staticnoise, kernel, taps, a1, a2, cplace)` from mvsfunc.py:
convert any color space to YUV/YCoCg with or without subsampling. -/
def ToYUV (input : Clip) (matrix : Option MatArg) (css : Option String)
    (depth sample : Option Int) (full : Option Bool) (dither : Option DitherV)
    (useZ : Option Bool) (ampo ampn : Option Rat) (dyn staticnoise : Option Bool)
    (kernel : Option String) (taps : Option Int) (a1 a2 : Option Rat)
    (cplace : Option String) : Except String Clip := do
  let funcName := "ToYUV"
  let clip ← tagMatrixProp input matrix false
  let mv ← GetMatrix input matrix (some false) false
  let matrixS : String := match mv with
    | MatVal.s s => s
    | MatVal.i _ => ""
  let sFormat := input.format
  if sFormat.color_family = CF.COMPAT then
    throw (funcName ++ ": Color family *COMPAT* is not supported!")
  let sbitPS := sFormat.bits_per_sample
  let sSType := sFormat.sample_type
  let sHSubS : Nat := 2 ^ sFormat.subsampling_w
  let sVSubS : Nat := 2 ^ sFormat.subsampling_h
  let fulls :=
    if sFormat.color_family = CF.RGB then true
    else match full with
      | none => resolveFullsFromMatrix sFormat.color_family matrixS
      | some b => b
  let (dbitPS, dSType) ← resolveTargetFormat funcName sbitPS sSType depth sample
  let fulld := match full with
    | none =>
      if matrixS = "RGB" ∨ matrixS = "YCgCo" ∨ matrixS = "OPP" then true
      else if sFormat.color_family = CF.YCOCG then true else false
    | some b => b
  let (dHSubS, dVSubS, cssR) ← match css with
    | none => pure (sHSubS, sVSubS, toString sHSubS ++ toString sVSubS)
    | some c => resolveCss c
  let pSType := max sSType dSType
  let pbitPS := internalPrecision sbitPS dbitPS pSType
    (dHSubS ≠ sHSubS ∨ dVSubS ≠ sVSubS)
  let (kernel, a1, a2) := resolveKernel kernel a1 a2
  -- Conversion
  if sFormat.color_family = CF.YUV ∨ sFormat.color_family = CF.YCOCG then do
    let clip ← if dHSubS ≠ sHSubS ∨ dVSubS ≠ sVSubS then do
        let c ← Depth clip (some pbitPS) (some (pSType : Int)) (some fulls) (some fulls)
          dither useZ ampo ampn dyn staticnoise
        pure (fmtcResampleCall c kernel taps a1 a2 cssR [2, 3, 3] fulls fulls cplace)
      else pure clip
    Depth clip (some dbitPS) (some (dSType : Int)) (some fulls) (some fulld)
      dither useZ ampo ampn dyn staticnoise
  else if sFormat.color_family = CF.GRAY then do
    let clip ← Depth clip (some dbitPS) (some (dSType : Int)) (some fulls) (some fulld)
      dither useZ ampo ampn dyn staticnoise
    -- Shuffle planes for Gray input.  Note: the source computes BOTH chroma
    -- dimensions from input.width (heightc = input.width // dVSubS).
    let widthc : Int := Int.fdiv input.width (dHSubS : Int)
    let heightc : Int := Int.fdiv input.width (dVSubS : Int)
    let UV := blankClipCall clip widthc heightc
      (if dSType = 1 then 0 else ((2 : Rat) ^ (dbitPS.toNat - 1)))
    return shufflePlanesCall [clip, UV, UV] [0, 0, 0] CF.YUV
  else do
    let clip ← Depth clip (some pbitPS) (some (pSType : Int)) (some fulls) (some fulls)
      dither useZ ampo ampn dyn staticnoise
    let clip :=
      if matrixS = "OPP" then
        fmtcMatrixCall clip none fulls fulld
          (some [1/3, 1/3, 1/3, 0, 1/2, 0, -1/2, 0, 1/4, -1/2, 1/4, 0]) CF.YUV
      else if matrixS = "2020cl" then
        fmtcMatrix2020clCall clip fulld
      else
        fmtcMatrixCall clip (some matrixS) fulls fulld none
          (if matrixS = "YCgCo" then CF.YCOCG else CF.YUV)
    let clip := if dHSubS ≠ sHSubS ∨ dVSubS ≠ sVSubS then
        fmtcResampleCall clip kernel taps a1 a2 cssR [2, 3, 3] fulld fulld cplace
      else clip
    Depth clip (some dbitPS) (some (dSType : Int)) (some fulld) (some fulld)
      dither useZ ampo ampn dyn staticnoise

/-! ### BM3D -/

/-- A `sigma` argument of BM3D: a scalar (int/float) or a list. -/
inductive SigmaArg : Type where
  | f : Rat → SigmaArg
  | l : List Rat → SigmaArg
deriving DecidableEq, Repr

/-- The Python `while len(sigma) < 3: sigma.append(sigma[len(sigma) - 1])`
on a nonempty list. -/
def padSigma : List Rat → List Rat
  | [] => []
  | [a] => [a, a, a]
  | [a, b] => [a, b, b]
  | xs => xs

/-- The sigma-processing block of BM3D. -/
def bm3dSigmaResolve (sigma : Option SigmaArg) (isGray : Bool) :
    Except String (List Rat) := do
  let s ← match sigma with
    | none => pure [5, 5, 5]
    | some (SigmaArg.f x) => pure [x, x, x]
    | some (SigmaArg.l xs) =>
      if xs = [] then throw "IndexError: list index out of range"
      else pure (padSigma xs)
  return if isGray then [s.headI, 0, 0] else s

/-- The format/size validation of the paired `pre`/`ref` clips of BM3D. -/
def checkPairedClip (funcName name : String) (c : Option Clip) (fmt : VFormat)
    (w h : Int) : Except String Unit :=
  match c with
  | none => .ok ()
  | some p =>
    if p.format ≠ fmt then
      .error (funcName ++ ": clip \"" ++ name ++ "\" must be of the same format as the input clip!")
    else if p.width ≠ w ∨ p.height ≠ h then
      .error (funcName ++ ": clip \"" ++ name ++ "\" must be of the same size as the input clip!")
    else .ok ()

/-- The final-estimate loop of BM3D:
`for i in range(0, refine): flt = step(flt)`. -/
def finalEstimateLoop (step : Clip → Clip) : Nat → Clip → Clip
  | 0, flt => flt
  | n + 1, flt => finalEstimateLoop step n (step flt)

/-- The fully resolved parameter set of one BM3D invocation (the values the
parameter-processing prologue of `BM3D` computes before any conversion). -/
structure BM3DPlan : Type where
  matrixS : String
  fulls : Bool
  pbitPS : Nat
  pSType : Nat
  cssR : String
  cd_cplace : Option String
  sigma : List Rat
  radius1 : Int
  radius2 : Int
  profile1 : String
  profile2 : String
  refine : Int
  output : Int
  dbitPS : Int
  dSType : Nat
  fulld : Bool
deriving Repr

/-- The parameter-processing prologue of `BM3D` (everything before the
first conversion, in source order): matrix/range resolution, internal
precision, css, sigma, radii, profiles, refine, output, pre/ref validation
and the output-format block. -/
def bm3dResolve (input : Clip) (sigma : Option SigmaArg) (radius1 radius2 : Option Int)
    (profile1 profile2 : Option String) (refine : Option Int) (pre ref : Option Clip)
    (psample : Option Int) (matrix : Option MatArg) (full : Option Bool)
    (output : Option Int) (css : Option String) (depth sample : Option Int)
    (cu_cplace cd_cplace : Option String) : Except String BM3DPlan := do
  let funcName := "BM3D"
  let mv ← GetMatrix input matrix (some true) false
  let matrixS : String := match mv with
    | MatVal.s s => s
    | MatVal.i _ => ""
  let sFormat := input.format
  if sFormat.color_family = CF.COMPAT then
    throw (funcName ++ ": Color family *COMPAT* is not supported!")
  let sbitPS := sFormat.bits_per_sample
  let sSType := sFormat.sample_type
  let sHSubS : Nat := 2 ^ sFormat.subsampling_w
  let sVSubS : Nat := 2 ^ sFormat.subsampling_h
  let fulls := match full with
    | none => resolveFullsFromMatrix sFormat.color_family matrixS
    | some b => b
  -- Get properties of internal processed clip
  let psample ← match psample with
    | none => pure 0
    | some p =>
      if p ≠ 0 ∧ p ≠ 1 then
        throw (funcName ++ ": \"psample\" must be either 0(vs.INTEGER) or 1(vs.FLOAT)!")
      else pure p.toNat
  let pbitPS : Nat := if psample = 0 then 16 else 32
  let pSType : Nat := psample
  -- Chroma sub-sampling parameters
  let (dHSubS, dVSubS, cssR) ← match css with
    | none => pure (sHSubS, sVSubS, toString sHSubS ++ toString sVSubS)
    | some c => resolveCss c
  let cd_cplace := if cu_cplace ≠ none ∧ cd_cplace = none then cu_cplace else cd_cplace
  -- Parameters processing
  let sigma ← bm3dSigmaResolve sigma (decide (sFormat.color_family = CF.GRAY))
  let radius1 ← match radius1 with
    | none => pure (0 : Int)
    | some r =>
      if r < 0 then throw (funcName ++ ": valid range of \"radius1\" is [0, +inf)!")
      else pure r
  let radius2 ← match radius2 with
    | none => pure radius1
    | some r =>
      if r < 0 then throw (funcName ++ ": valid range of \"radius2\" is [0, +inf)!")
      else pure r
  let profile1 := profile1.getD "fast"
  let profile2 := profile2.getD profile1
  let refine ← match refine with
    | none => pure (1 : Int)
    | some r =>
      if r < 0 then throw (funcName ++ ": valid range of \"refine\" is [0, +inf)!")
      else pure r
  let output ← match output with
    | none => pure (0 : Int)
    | some o =>
      if o < 0 ∨ o > 2 then throw (funcName ++ ": valid values of \"output\" are 0, 1 and 2!")
      else pure o
  checkPairedClip funcName "pre" pre sFormat input.width input.height
  checkPairedClip funcName "ref" ref sFormat input.width input.height
  -- Get properties of output clip
  let (dbitPS, dSType) ← resolveTargetFormat funcName
    (if output = 0 then sbitPS else pbitPS) (if output = 0 then sSType else pSType)
    depth sample
  let fulld := if output = 0 then fulls else true
  return { matrixS := matrixS, fulls := fulls, pbitPS := pbitPS, pSType := pSType,
           cssR := cssR, cd_cplace := cd_cplace, sigma := sigma,
           radius1 := radius1, radius2 := radius2, profile1 := profile1,
           profile2 := profile2, refine := refine, output := output,
           dbitPS := dbitPS, dSType := dSType, fulld := fulld }

/-- The conversion/estimation body of `BM3D`, taking the resolved plan:
convert to the internal space, basic estimate, `refine` final-estimate
passes, convert back. -/
def bm3dApply (input : Clip) (pre ref : Option Clip)
    (dither : Option DitherV) (useZ : Option Bool) (ampo ampn : Option Rat)
    (dyn staticnoise : Option Bool)
    (cu_kernel : Option String) (cu_taps : Option Int) (cu_a1 cu_a2 : Option Rat)
    (cu_cplace : Option String)
    (cd_kernel : Option String) (cd_taps : Option Int) (cd_a1 cd_a2 : Option Rat)
    (block_size1 block_step1 group_size1 bm_range1 bm_step1 ps_num1 ps_range1 ps_step1 :
      Option Int) (th_mse1 hard_thr : Option Rat)
    (block_size2 block_step2 group_size2 bm_range2 bm_step2 ps_num2 ps_range2 ps_step2 :
      Option Int) (th_mse2 : Option Rat) (plan : BM3DPlan) : Except String Clip := do
  let sFormat := input.format
  let matrixS := plan.matrixS
  let fulls := plan.fulls
  let pbitPS := plan.pbitPS
  let pSType := plan.pSType
  let cssR := plan.cssR
  let cd_cplace := plan.cd_cplace
  let sigma := plan.sigma
  let radius1 := plan.radius1
  let radius2 := plan.radius2
  let profile1 := plan.profile1
  let profile2 := plan.profile2
  let refine := plan.refine
  let output := plan.output
  let dbitPS := plan.dbitPS
  let dSType := plan.dSType
  let fulld := plan.fulld
  -- Convert to processed format
  let (clip, preC, refC, onlyY, srcOPP) ←
    if sFormat.color_family = CF.GRAY then do
      let c ← Depth input (some (pbitPS : Int)) (some (pSType : Int)) (some fulls)
        (some true) dither useZ ampo ampn dyn staticnoise
      let p ← match pre with
        | none => pure none
        | some q => do
          pure (some (← Depth q (some (pbitPS : Int)) (some (pSType : Int)) (some fulls)
            (some true) dither useZ ampo ampn dyn staticnoise))
      let r ← match ref with
        | none => pure none
        | some q => do
          pure (some (← Depth q (some (pbitPS : Int)) (some (pSType : Int)) (some fulls)
            (some true) dither useZ ampo ampn dyn staticnoise))
      pure (c, p, r, true, (none : Option Clip))
    else do
      let c ← ToRGB input (some (MatArg.s matrixS)) (some (pbitPS : Int))
        (some (pSType : Int)) (some fulls) dither useZ ampo ampn dyn staticnoise
        cu_kernel cu_taps cu_a1 cu_a2 cu_cplace
      let p ← match pre with
        | none => pure none
        | some q => do
          pure (some (← ToRGB q (some (MatArg.s matrixS)) (some (pbitPS : Int))
            (some (pSType : Int)) (some fulls) dither useZ ampo ampn dyn staticnoise
            cu_kernel cu_taps cu_a1 cu_a2 cu_cplace))
      let r ← match ref with
        | none => pure none
        | some q => do
          pure (some (← ToRGB q (some (MatArg.s matrixS)) (some (pbitPS : Int))
            (some (pSType : Int)) (some fulls) dither useZ ampo ampn dyn staticnoise
            cu_kernel cu_taps cu_a1 cu_a2 cu_cplace))
      let c ← ToYUV c (some (MatArg.s "OPP")) (some "444") (some (pbitPS : Int))
        (some (pSType : Int)) (some true) dither useZ ampo ampn dyn staticnoise
        cu_kernel cu_taps cu_a1 cu_a2 cu_cplace
      let p ← match p with
        | none => pure none
        | some q => do
          pure (some (← ToYUV q (some (MatArg.s "OPP")) (some "444") (some (pbitPS : Int))
            (some (pSType : Int)) (some true) dither useZ ampo ampn dyn staticnoise
            cu_kernel cu_taps cu_a1 cu_a2 cu_cplace))
      let r ← match r with
        | none => pure none
        | some q => do
          pure (some (← ToYUV q (some (MatArg.s "OPP")) (some "444") (some (pbitPS : Int))
            (some (pSType : Int)) (some true) dither useZ ampo ampn dyn staticnoise
            cu_kernel cu_taps cu_a1 cu_a2 cu_cplace))
      let srcOPP := c
      if sigma.getD 1 0 ≤ 0 ∧ sigma.getD 2 0 ≤ 0 then
        pure (shufflePlanesCall [c] [0] CF.GRAY,
          p.map (fun q => shufflePlanesCall [q] [0] CF.GRAY),
          r.map (fun q => shufflePlanesCall [q] [0] CF.GRAY), true, some srcOPP)
      else
        pure (c, p, r, false, some srcOPP)
  -- Basic estimate
  let flt :=
    match refC with
    | some r => r
    | none =>
      if radius1 < 1 then
        bm3dBasicCall clip preC (some profile1) sigma block_size1 block_step1
          group_size1 bm_range1 bm_step1 th_mse1 hard_thr 100
      else
        let f := bm3dVAggregateCall
          (bm3dVBasicCall clip preC (some profile1) sigma radius1 block_size1
            block_step1 group_size1 bm_range1 bm_step1 ps_num1 ps_range1 ps_step1
            th_mse1 hard_thr 100) radius1 pSType
        if onlyY = false ∧ sigma.getD 0 0 ≤ 0 then
          shufflePlanesCall [clip, f, f] [0, 1, 2] CF.YUV
        else f
  -- Final estimate
  let step : Clip → Clip := fun f =>
    if radius1 < 1 then
      bm3dBasicCall clip (some f) (some profile2) sigma block_size2 block_step2
        group_size2 bm_range2 bm_step2 th_mse2 none 100
    else
      let g := bm3dVAggregateCall
        (bm3dVBasicCall clip (some f) (some profile2) sigma radius2 block_size2
          block_step2 group_size2 bm_range2 bm_step2 ps_num2 ps_range2 ps_step2
          th_mse2 none 100) radius1 pSType
      if onlyY = false ∧ sigma.getD 0 0 ≤ 0 then
        shufflePlanesCall [clip, g, g] [0, 1, 2] CF.YUV
      else g
  let flt := finalEstimateLoop step refine.toNat flt
  -- Convert to output format
  if sFormat.color_family = CF.GRAY then
    Depth flt (some dbitPS) (some (dSType : Int)) (some true) (some fulld)
      dither useZ ampo ampn dyn staticnoise
  else do
    let clip ←
      if onlyY then
        pure (shufflePlanesCall [flt, srcOPP.getD clip, srcOPP.getD clip] [0, 1, 2] CF.YUV)
      else if sigma.getD 1 0 ≤ 0 ∨ sigma.getD 2 0 ≤ 0 then
        pure (shufflePlanesCall
          [flt, (if sigma.getD 1 0 ≤ 0 then clip else flt),
            (if sigma.getD 2 0 ≤ 0 then clip else flt)] [0, 1, 2] CF.YUV)
      else pure flt
    let clip ←
      if output ≤ 1 then
        ToRGB clip (some (MatArg.s "OPP")) (some (pbitPS : Int)) (some (pSType : Int))
          (some true) dither useZ ampo ampn dyn staticnoise
          cu_kernel cu_taps cu_a1 cu_a2 cu_cplace
      else pure clip
    if output ≤ 0 ∧ sFormat.color_family ≠ CF.RGB then
      ToYUV clip (some (MatArg.s matrixS)) (some cssR) (some dbitPS)
        (some (dSType : Int)) (some fulld) dither useZ ampo ampn dyn staticnoise
        cd_kernel cd_taps cd_a1 cd_a2 cd_cplace
    else
      Depth clip (some dbitPS) (some (dSType : Int)) (some true) (some fulld)
        dither useZ ampo ampn dyn staticnoise

/-- `BM3D(input, sigma, radius1, radius2, profile1, profile2, refine, pre,
ref, psample, matrix, full, output, css, depth, sample, dither, useZ, ampo,
ampn, dyn, staticnoise, cu_*, cd_*, basic-estimate params, final-estimate
params)` from mvsfunc.py: the BM3D/V-BM3D wrapper, filtering in 16-bit
integer or 32-bit float opponent (or Gray) space.  Composed of the
parameter-processing prologue `bm3dResolve` and the conversion/estimation
body `bm3dApply`, in source order. -/
def BM3D (input : Clip) (sigma : Option SigmaArg) (radius1 radius2 : Option Int)
    (profile1 profile2 : Option String) (refine : Option Int) (pre ref : Option Clip)
    (psample : Option Int) (matrix : Option MatArg) (full : Option Bool)
    (output : Option Int) (css : Option String) (depth sample : Option Int)
    (dither : Option DitherV) (useZ : Option Bool) (ampo ampn : Option Rat)
    (dyn staticnoise : Option Bool)
    (cu_kernel : Option String) (cu_taps : Option Int) (cu_a1 cu_a2 : Option Rat)
    (cu_cplace : Option String)
    (cd_kernel : Option String) (cd_taps : Option Int) (cd_a1 cd_a2 : Option Rat)
    (cd_cplace : Option String)
    (block_size1 block_step1 group_size1 bm_range1 bm_step1 ps_num1 ps_range1 ps_step1 :
      Option Int) (th_mse1 hard_thr : Option Rat)
    (block_size2 block_step2 group_size2 bm_range2 bm_step2 ps_num2 ps_range2 ps_step2 :
      Option Int) (th_mse2 : Option Rat) : Except String Clip := do
  let plan ← bm3dResolve input sigma radius1 radius2 profile1 profile2 refine pre ref
    psample matrix full output css depth sample cu_cplace cd_cplace
  bm3dApply input pre ref dither useZ ampo ampn dyn staticnoise
    cu_kernel cu_taps cu_a1 cu_a2 cu_cplace cd_kernel cd_taps cd_a1 cd_a2
    block_size1 block_step1 group_size1 bm_range1 bm_step1 ps_num1 ps_range1 ps_step1
    th_mse1 hard_thr
    block_size2 block_step2 group_size2 bm_range2 bm_step2 ps_num2 ps_range2 ps_step2
    th_mse2 plan

/-! ### Concrete test clips -/

/-- A fresh source clip of the given format and size. -/
def testClip (cf : CF) (bits st ssw ssh : Nat) (w h : Int) : Clip :=
  { format := { color_family := cf, bits_per_sample := bits, sample_type := st,
                subsampling_w := ssw, subsampling_h := ssh },
    width := w, height := h, pix := Pix.source 0, props := emptyProps }

/-- A 4:2:0 YUV source clip of the given size (8-bit integer). -/
def yuvClipW (w h : Int) : Clip := testClip CF.YUV 8 0 1 1 w h

/-- A 1920x1080 4:2:0 YUV source clip of the given integer bit depth. -/
def yuvBits (b : Nat) : Clip := testClip CF.YUV b 0 1 1 1920 1080

/-- A 1920x1080 8-bit Gray source clip. -/
def gray8Clip : Clip := testClip CF.GRAY 8 0 0 0 1920 1080

/-- A 1920x1080 16-bit integer Gray source clip. -/
def gray16Clip : Clip := testClip CF.GRAY 16 0 0 0 1920 1080

/-- `gray16Clip` with its `_ColorRange` property tagged full range, i.e. the
internal clip BM3D filters when fed `gray16Clip` with `full=True`. -/
def gray16Tagged : Clip :=
  { gray16Clip with props := { emptyProps with colorRange := some 0 } }

/-- Which backend produced the root engine node of a clip: `some true` for
z.Depth, `some false` for fmtc.bitdepth, `none` otherwise. -/
def usedBackendZ (c : Clip) : Option Bool :=
  match c.pix with
  | Pix.zDepth _ _ _ _ _ _ => some true
  | Pix.fmtcBitdepth _ _ _ _ _ _ _ _ _ _ => some false
  | _ => none

/-- The dither value passed to the depth-conversion engine at the root node
of a clip, if any. -/
def ditherModeOf (c : Clip) : Option DitherV :=
  match c.pix with
  | Pix.zDepth _ d _ _ _ _ => some d
  | Pix.fmtcBitdepth _ _ _ _ _ dm _ _ _ _ => some dm
  | _ => none

/-! ## Helper lemmas -/

/-- Full characterization of `GetMatrix` with an unspecified matrix. -/
theorem getMatrix_none (c : Clip) (dArg : Option Bool) (id : Bool)
    (hC : c.format.color_family ≠ CF.COMPAT) :
    GetMatrix c none dArg id = .ok (
      if getMatrixDIsRGB c dArg = true ∧ c.format.color_family = CF.RGB then
        (if id then MatVal.i 0 else MatVal.s "RGB")
      else if c.format.color_family = CF.YCOCG then
        (if id then MatVal.i 8 else MatVal.s "YCgCo")
      else if levelSD c then (if id then MatVal.i 6 else MatVal.s "601")
      else if levelUHD c then (if id then MatVal.i 9 else MatVal.s "2020")
      else (if id then MatVal.i 1 else MatVal.s "709")) := by
  unfold GetMatrix
  simp only [if_neg hC, pure, Except.pure, Except.bind, bind]
  split_ifs <;> simp_all

/-- Tagging `_ColorRange` with 0/1 (as `Depth` does) never fails and only
touches the property slot. -/
theorem setColorSpace_colorRange (c : Clip) (b : Bool) :
    SetColorSpace c none (some (PropArg.set (if b then 0 else 1))) none none none =
    .ok { c with props := { c.props with colorRange := some (if b then 0 else 1) } } := by
  cases b <;> rfl

/-! ## Claim theorems -/

/-- C1: with an unspecified matrix, outside the RGB-to-RGB and YCoCg special
cases, `GetMatrix` picks the default by resolution tier of a
positive-dimension clip: within 1024x576 it returns SMPTE170M ("601"/id 6),
else within 2048x1536 BT709 ("709"/id 1), else BT2020NC ("2020"/id 9). -/
theorem C1_default_matrix_by_resolution_tier (c : Clip) (dArg : Option Bool)
    (hC : c.format.color_family ≠ CF.COMPAT)
    (hY : c.format.color_family ≠ CF.YCOCG)
    (hR : ¬(getMatrixDIsRGB c dArg = true ∧ c.format.color_family = CF.RGB))
    (hw : 0 < c.width) (hh : 0 < c.height) :
    GetMatrix c none dArg false =
      .ok (MatVal.s (if c.width ≤ 1024 ∧ c.height ≤ 576 then "601"
        else if c.width ≤ 2048 ∧ c.height ≤ 1536 then "709" else "2020")) ∧
    GetMatrix c none dArg true =
      .ok (MatVal.i (if c.width ≤ 1024 ∧ c.height ≤ 576 then 6
        else if c.width ≤ 2048 ∧ c.height ≤ 1536 then 1 else 9)) := by
  have hnD : ¬(c.width ≤ 0 ∨ c.height ≤ 0) := by omega
  refine ⟨?_, ?_⟩ <;>
  · rw [getMatrix_none _ _ _ hC, if_neg hR, if_neg hY]
    by_cases h1 : c.width ≤ 1024 ∧ c.height ≤ 576
    · rw [if_pos (show levelSD c from ⟨hnD, h1⟩), if_pos h1]; rfl
    · have hSD : ¬ levelSD c := fun h => h1 h.2
      rw [if_neg hSD, if_neg h1]
      by_cases h2 : c.width ≤ 2048 ∧ c.height ≤ 1536
      · rw [if_neg (show ¬ levelUHD c from fun h => h.2.2 h2), if_pos h2]; rfl
      · rw [if_pos (show levelUHD c from ⟨hnD, h1, h2⟩), if_neg h2]; rfl

/-- C1 witness: a 1920x1080 YUV clip resolves to "709"/1, a 640x480 clip to
"601"/6, a 4000x2000 clip to "2020"/9. -/
theorem C1_witness :
    GetMatrix (yuvClipW 1920 1080) none none false = .ok (MatVal.s "709") ∧
    GetMatrix (yuvClipW 640 480) none none false = .ok (MatVal.s "601") ∧
    GetMatrix (yuvClipW 4000 2000) none none false = .ok (MatVal.s "2020") ∧
    GetMatrix (yuvClipW 1920 1080) none none true = .ok (MatVal.i 1) ∧
    GetMatrix (yuvClipW 640 480) none none true = .ok (MatVal.i 6) ∧
    GetMatrix (yuvClipW 4000 2000) none none true = .ok (MatVal.i 9) := by
  have h1 := C1_default_matrix_by_resolution_tier (yuvClipW 1920 1080) none
    (by decide) (by decide) (by decide) (by decide) (by decide)
  have h2 := C1_default_matrix_by_resolution_tier (yuvClipW 640 480) none
    (by decide) (by decide) (by decide) (by decide) (by decide)
  have h3 := C1_default_matrix_by_resolution_tier (yuvClipW 4000 2000) none
    (by decide) (by decide) (by decide) (by decide) (by decide)
  exact ⟨h1.1.trans (by norm_num [yuvClipW, testClip]),
    h2.1.trans (by norm_num [yuvClipW, testClip]),
    h3.1.trans (by norm_num [yuvClipW, testClip]),
    h1.2.trans (by norm_num [yuvClipW, testClip]),
    h2.2.trans (by norm_num [yuvClipW, testClip]),
    h3.2.trans (by norm_num [yuvClipW, testClip])⟩

/-- C10: with an unspecified matrix, outside the RGB-to-RGB and YCoCg
special cases, a clip with nonpositive width or height falls through the
resolution-tier chain (the noneD flag is computed but never branched on)
and gets the same default as the HD tier: "709"/id 1. -/
theorem C10_nonpositive_dims_default_709 (c : Clip) (dArg : Option Bool)
    (hC : c.format.color_family ≠ CF.COMPAT)
    (hY : c.format.color_family ≠ CF.YCOCG)
    (hR : ¬(getMatrixDIsRGB c dArg = true ∧ c.format.color_family = CF.RGB))
    (hD : c.width ≤ 0 ∨ c.height ≤ 0) :
    GetMatrix c none dArg false = .ok (MatVal.s "709") ∧
    GetMatrix c none dArg true = .ok (MatVal.i 1) := by
  refine ⟨?_, ?_⟩ <;>
  · rw [getMatrix_none _ _ _ hC, if_neg hR, if_neg hY]
    simp [levelSD, levelUHD, hD]

/-- C10 witness: a 0x0 YUV clip with unspecified matrix resolves to
"709"/id 1. -/
theorem C10_witness :
    GetMatrix (yuvClipW 0 0) none none false = .ok (MatVal.s "709") ∧
    GetMatrix (yuvClipW 0 0) none none true = .ok (MatVal.i 1) :=
  C10_nonpositive_dims_default_709 (yuvClipW 0 0) none
    (by decide) (by decide) (by decide) (by decide)

/-- C4: when the resolved output format equals the input format and (for
integer formats) the resolved ranges are equal, `Depth` performs no
conversion: whenever it returns a clip, that clip carries the input pixels
unchanged (no engine node is added to the pixel tree). -/
theorem C4_depth_identity_noop (input : Clip) (depth sample : Option Int)
    (fullsArg fulldArg : Option Bool) (ditherArg : Option DitherV) (useZArg : Option Bool)
    (ampoArg ampnArg : Option Rat) (dyn staticnoise : Option Bool) (out : Clip)
    (hfmt : resolveTargetFormat "Depth" input.format.bits_per_sample
      input.format.sample_type depth sample =
      .ok ((input.format.bits_per_sample : Int), input.format.sample_type))
    (hrange : input.format.sample_type = 1 ∨
      (fulldArg.getD (fullsArg.getD (depthDefaultFulls input.format.color_family)) =
       fullsArg.getD (depthDefaultFulls input.format.color_family)))
    (hok : Depth input depth sample fullsArg fulldArg ditherArg useZArg ampoArg
      ampnArg dyn staticnoise = .ok out) :
    out.pix = input.pix := by
  unfold Depth at hok
  by_cases hcf : input.format.color_family = CF.COMPAT
  · simp only [hcf, if_pos, throw, throwThe, MonadExceptOf.throw, bind, Except.bind] at hok
    simp at hok
  rw [if_neg hcf] at hok
  simp only [bind, Except.bind, pure, Except.pure] at hok
  cases fullsArg with
  | none =>
    rw [hfmt] at hok
    simp only [Option.getD] at hok hrange ⊢
    split at hok
    · simp at hok
    · simp only [eq_self_iff_true, true_and] at hok
      rw [if_pos hrange] at hok
      cases hok
      rfl
  | some b =>
    dsimp only at hok
    rw [setColorSpace_colorRange] at hok
    rw [hfmt] at hok
    simp only [Option.getD] at hok hrange ⊢
    split at hok
    · simp at hok
    · simp only [eq_self_iff_true, true_and] at hok
      rw [if_pos hrange] at hok
      cases hok
      rfl

/-- C4 witness: an all-default `Depth` call on an 8-bit YUV clip returns the
input clip itself, with its pixel tree untouched. -/
theorem C4_witness :
    Depth (yuvClipW 1920 1080) none none none none none none none none none none =
      .ok (yuvClipW 1920 1080) ∧
    (yuvClipW 1920 1080).pix = (yuvClipW 1920 1080).pix := by
  have hok : Depth (yuvClipW 1920 1080) none none none none none none none none
      none none = .ok (yuvClipW 1920 1080) := by rfl
  exact ⟨hok, C4_depth_identity_noop (yuvClipW 1920 1080) none none none none none
    none none none none none (yuvClipW 1920 1080) (by rfl) (Or.inr rfl) hok⟩

/-- C2 counterexample: with a 13-bit integer source and an explicit
`useZ=False`, `Depth` still converts through z.Depth (backend STANDARD),
so an explicit backend selector does not override the forced-STANDARD
rules as the claim states. -/
theorem C2_counterexample :
    (Depth (yuvBits 13) (some 8) none none none none (some false) none none none
      none).map usedBackendZ = .ok (some true) ∧
    (some true : Option Bool) ≠ some false := ⟨rfl, by decide⟩

/-- C2 (amended): an explicit `useZ` replaces the full-range-integer
defaulting rule of step 1, but the forced-STANDARD rules still apply on top
of it: the backend is z.Depth iff the explicit value is True, or 13/15-bit
integer is involved on either side, or a sub-32-bit float is involved on
either side. -/
theorem C2_explicit_useZ_still_subject_to_forced_rules
    (sbitPS sSType : Nat) (dbitPS : Int) (dSType : Nat)
    (fulls fulld : Bool) (b : Bool) :
    depthUseZResolve sbitPS sSType dbitPS dSType fulls fulld (some b) =
      (b || decide (sSType = 0 ∧ (sbitPS = 13 ∨ sbitPS = 15)) ||
        decide (dSType = 0 ∧ (dbitPS = 13 ∨ dbitPS = 15)) ||
        decide ((sSType = 1 ∧ sbitPS < 32) ∨ (dSType = 1 ∧ dbitPS < 32))) := by
  unfold depthUseZResolve
  by_cases h1 : sSType = 0 ∧ (sbitPS = 13 ∨ sbitPS = 15) <;>
  by_cases h2 : dSType = 0 ∧ (dbitPS = 13 ∨ dbitPS = 15) <;>
  by_cases h3 : (sSType = 1 ∧ sbitPS < 32) ∨ (dSType = 1 ∧ dbitPS < 32) <;>
  simp [h1, h2, h3]

/-- C3 counterexample: for an 8-bit limited source converted to 10-bit
limited with no explicit dither, `Depth` invokes fmtc.bitdepth with
`dmode=1` ("none"), not mode 3 ("error_diffusion") as the claim states for
this input. -/
theorem C3_counterexample :
    (Depth (yuvBits 8) (some 10) none none none none none none none none
      none).map ditherModeOf = .ok (some (DitherV.i 1)) ∧
    (DitherV.i 1 : DitherV) ≠ DitherV.i 3 := ⟨rfl, by decide⟩

/-- C3 (amended): the default dither is "none"/mode 1 exactly when the
destination is 32-bit, or the destination depth is at least the source
depth AND both ranges are limited (not merely equal); otherwise
"error_diffusion"/mode 3.  In particular 8-bit limited to 10-bit limited
defaults to mode 1 ("none"), and 10-bit to 10-bit both-limited defaults to
mode 1 as well. -/
theorem C3_default_dither_requires_both_limited :
    (∀ (sbitPS : Nat) (dbitPS : Int) (fulls fulld : Bool) (useZ : Bool),
      depthDitherDefault sbitPS dbitPS fulls fulld useZ =
        (if dbitPS = 32 ∨ ((sbitPS : Int) ≤ dbitPS ∧ fulls = false ∧ fulld = false) then
          (if useZ then DitherV.s "none" else DitherV.i 1)
        else (if useZ then DitherV.s "error_diffusion" else DitherV.i 3))) ∧
    depthDitherDefault 8 10 false false false = DitherV.i 1 ∧
    depthDitherDefault 10 10 false false false = DitherV.i 1 := by
  refine ⟨?_, rfl, rfl⟩
  intro sbitPS dbitPS fulls fulld useZ
  unfold depthDitherDefault
  split_ifs <;> simp_all

/-- C5: with no explicit range flag, a YUV or Gray clip resolves to limited
range unless its matrix resolves to RGB, YCgCo or OPP (then full), and an
RGB clip resolves to full range; in particular YUV+OPP is full and
YUV+"709" (BT709) is limited. -/
theorem C5_default_range_resolution (m : String) :
    resolveFullsFromMatrix CF.YUV m = decide (m = "RGB" ∨ m = "YCgCo" ∨ m = "OPP") ∧
    resolveFullsFromMatrix CF.GRAY m = decide (m = "RGB" ∨ m = "YCgCo" ∨ m = "OPP") ∧
    resolveFullsFromMatrix CF.RGB m = true ∧
    resolveFullsFromMatrix CF.YUV "OPP" = true ∧
    resolveFullsFromMatrix CF.YUV "709" = false := by
  unfold resolveFullsFromMatrix
  refine ⟨?_, ?_, by simp, by simp, by simp⟩ <;> split_ifs <;> simp_all


/-- The shared output-format check rejects an integer depth outside
[8, 16] with the message naming the depth. -/
theorem resolveTargetFormat_bad_int (fn : String) (defB defS : Nat) (d : Int)
    (h : d < 8 ∨ (16 < d ∧ d < 32)) :
    resolveTargetFormat fn defB defS (some d) none =
      .error (fn ++ ": " ++ toString d ++ "-bit integer output is not supported!") := by
  unfold resolveTargetFormat
  have h32 : ¬ d ≥ 32 := by omega
  have hbad : d < 8 ∨ d > 16 := by omega
  simp [h32, hbad, bind, Except.bind, pure, Except.pure]

/-- The shared output-format check rejects a float depth other than 16/32
with the message naming the depth. -/
theorem resolveTargetFormat_bad_float (fn : String) (defB defS : Nat) (d : Int)
    (h : d ≠ 16 ∧ d ≠ 32) :
    resolveTargetFormat fn defB defS (some d) (some 1) =
      .error (fn ++ ": " ++ toString d ++ "-bit float output is not supported!") := by
  unfold resolveTargetFormat
  simp [h, bind, Except.bind, pure, Except.pure]

/-- `Depth` propagates the bad-integer-depth failure. -/
theorem depth_bad_int (c : Clip) (d : Int) (hcf : c.format.color_family = CF.YUV)
    (h : d < 8 ∨ (16 < d ∧ d < 32)) :
    Depth c (some d) none none none none none none none none none =
      .error ("Depth: " ++ toString d ++ "-bit integer output is not supported!") := by
  unfold Depth
  dsimp only
  rw [hcf, resolveTargetFormat_bad_int "Depth" _ _ _ h]
  simp [bind, Except.bind, pure, Except.pure]

/-- `Depth` propagates the bad-float-depth failure. -/
theorem depth_bad_float (c : Clip) (d : Int) (hcf : c.format.color_family = CF.YUV)
    (h : d ≠ 16 ∧ d ≠ 32) :
    Depth c (some d) (some 1) none none none none none none none none =
      .error ("Depth: " ++ toString d ++ "-bit float output is not supported!") := by
  unfold Depth
  dsimp only
  rw [hcf, resolveTargetFormat_bad_float "Depth" _ _ _ h]
  simp [bind, Except.bind, pure, Except.pure]

/-- `ToRGB` propagates the bad-integer-depth failure. -/
theorem torgb_bad_int (c : Clip) (d : Int) (hcf : c.format.color_family = CF.YUV)
    (h : d < 8 ∨ (16 < d ∧ d < 32)) :
    ToRGB c none (some d) none none none none none none none none none none none none
      none = .error ("ToRGB: " ++ toString d ++ "-bit integer output is not supported!") := by
  unfold ToRGB tagMatrixProp
  dsimp only
  rw [getMatrix_none c (some true) false (by rw [hcf]; decide)]
  rw [hcf, resolveTargetFormat_bad_int "ToRGB" _ _ _ h]
  simp [bind, Except.bind, pure, Except.pure]

/-- `ToRGB` propagates the bad-float-depth failure. -/
theorem torgb_bad_float (c : Clip) (d : Int) (hcf : c.format.color_family = CF.YUV)
    (h : d ≠ 16 ∧ d ≠ 32) :
    ToRGB c none (some d) (some 1) none none none none none none none none none none
      none none =
      .error ("ToRGB: " ++ toString d ++ "-bit float output is not supported!") := by
  unfold ToRGB tagMatrixProp
  dsimp only
  rw [getMatrix_none c (some true) false (by rw [hcf]; decide)]
  rw [hcf, resolveTargetFormat_bad_float "ToRGB" _ _ _ h]
  simp [bind, Except.bind, pure, Except.pure]

/-- `ToYUV` propagates the bad-integer-depth failure. -/
theorem toyuv_bad_int (c : Clip) (d : Int) (hcf : c.format.color_family = CF.YUV)
    (h : d < 8 ∨ (16 < d ∧ d < 32)) :
    ToYUV c none none (some d) none none none none none none none none none none none
      none none = .error ("ToYUV: " ++ toString d ++ "-bit integer output is not supported!") := by
  unfold ToYUV tagMatrixProp
  dsimp only
  rw [getMatrix_none c (some false) false (by rw [hcf]; decide)]
  rw [hcf, resolveTargetFormat_bad_int "ToYUV" _ _ _ h]
  simp [bind, Except.bind, pure, Except.pure]

/-- `ToYUV` propagates the bad-float-depth failure. -/
theorem toyuv_bad_float (c : Clip) (d : Int) (hcf : c.format.color_family = CF.YUV)
    (h : d ≠ 16 ∧ d ≠ 32) :
    ToYUV c none none (some d) (some 1) none none none none none none none none none
      none none none =
      .error ("ToYUV: " ++ toString d ++ "-bit float output is not supported!") := by
  unfold ToYUV tagMatrixProp
  dsimp only
  rw [getMatrix_none c (some false) false (by rw [hcf]; decide)]
  rw [hcf, resolveTargetFormat_bad_float "ToYUV" _ _ _ h]
  simp [bind, Except.bind, pure, Except.pure]

/-- The BM3D parameter prologue propagates the bad-integer-depth failure. -/
theorem bm3dResolve_bad_int (c : Clip) (d : Int) (hcf : c.format.color_family = CF.YUV)
    (h : d < 8 ∨ (16 < d ∧ d < 32)) :
    bm3dResolve c none none none none none none none none none none none none none
      (some d) none none none =
      .error ("BM3D: " ++ toString d ++ "-bit integer output is not supported!") := by
  unfold bm3dResolve
  dsimp only
  rw [getMatrix_none c (some true) false (by rw [hcf]; decide)]
  rw [hcf]
  simp only [bind, Except.bind, pure, Except.pure, bm3dSigmaResolve, checkPairedClip,
    reduceCtorEq, reduceIte, decide_False]
  rw [resolveTargetFormat_bad_int "BM3D" _ _ _ h]
  rfl

/-- The BM3D parameter prologue propagates the bad-float-depth failure. -/
theorem bm3dResolve_bad_float (c : Clip) (d : Int) (hcf : c.format.color_family = CF.YUV)
    (h : d ≠ 16 ∧ d ≠ 32) :
    bm3dResolve c none none none none none none none none none none none none none
      (some d) (some 1) none none =
      .error ("BM3D: " ++ toString d ++ "-bit float output is not supported!") := by
  unfold bm3dResolve
  dsimp only
  rw [getMatrix_none c (some true) false (by rw [hcf]; decide)]
  rw [hcf]
  simp only [bind, Except.bind, pure, Except.pure, bm3dSigmaResolve, checkPairedClip,
    reduceCtorEq, reduceIte, decide_False]
  rw [resolveTargetFormat_bad_float "BM3D" _ _ _ h]
  rfl

/-- `BM3D` propagates the bad-integer-depth failure before any conversion. -/
theorem bm3d_bad_int (c : Clip) (d : Int) (hcf : c.format.color_family = CF.YUV)
    (h : d < 8 ∨ (16 < d ∧ d < 32)) :
    BM3D c none none none none none none none none none none none none none (some d)
      none none none none none none none none none none none none none none none none
      none none none none none none none none none none none none none none none none
      none none none none =
      .error ("BM3D: " ++ toString d ++ "-bit integer output is not supported!") := by
  unfold BM3D
  rw [bm3dResolve_bad_int c d hcf h]
  rfl

/-- `BM3D` propagates the bad-float-depth failure before any conversion. -/
theorem bm3d_bad_float (c : Clip) (d : Int) (hcf : c.format.color_family = CF.YUV)
    (h : d ≠ 16 ∧ d ≠ 32) :
    BM3D c none none none none none none none none none none none none none (some d)
      (some 1) none none none none none none none none none none none none none none
      none none none none none none none none none none none none none none none none
      none none none none none =
      .error ("BM3D: " ++ toString d ++ "-bit float output is not supported!") := by
  unfold BM3D
  rw [bm3dResolve_bad_float c d hcf h]
  rfl

/-- C6: for any YUV clip, a requested integer depth outside [8, 16] or a
float depth other than 16/32 makes Depth, ToRGB, ToYUV and BM3D all fail
with the unsupported-format error naming the offending depth; the error is
produced by the shared output-format block, before any engine call (the
error value is returned instead of any clip). -/
theorem C6_invalid_depth_fails_before_engine (c : Clip) (d : Int) (hcf : c.format.color_family = CF.YUV) :
    ((d < 8 ∨ (16 < d ∧ d < 32)) →
      Depth c (some d) none none none none none none none none none =
        .error ("Depth: " ++ toString d ++ "-bit integer output is not supported!") ∧
      ToRGB c none (some d) none none none none none none none none none none none
        none none =
        .error ("ToRGB: " ++ toString d ++ "-bit integer output is not supported!") ∧
      ToYUV c none none (some d) none none none none none none none none none none
        none none none =
        .error ("ToYUV: " ++ toString d ++ "-bit integer output is not supported!") ∧
      BM3D c none none none none none none none none none none none none none (some d)
      none none none none none none none none none none none none none none none none
      none none none none none none none none none none none none none none none none
      none none none none =
        .error ("BM3D: " ++ toString d ++ "-bit integer output is not supported!")) ∧
    ((d ≠ 16 ∧ d ≠ 32) →
      Depth c (some d) (some 1) none none none none none none none none =
        .error ("Depth: " ++ toString d ++ "-bit float output is not supported!") ∧
      ToRGB c none (some d) (some 1) none none none none none none none none none none
        none none =
        .error ("ToRGB: " ++ toString d ++ "-bit float output is not supported!") ∧
      ToYUV c none none (some d) (some 1) none none none none none none none none none
        none none none =
        .error ("ToYUV: " ++ toString d ++ "-bit float output is not supported!") ∧
      BM3D c none none none none none none none none none none none none none (some d)
      (some 1) none none none none none none none none none none none none none none
      none none none none none none none none none none none none none none none none
      none none none none none =
        .error ("BM3D: " ++ toString d ++ "-bit float output is not supported!")) :=
  ⟨fun h => ⟨depth_bad_int c d hcf h, torgb_bad_int c d hcf h, toyuv_bad_int c d hcf h,
    bm3d_bad_int c d hcf h⟩,
   fun h => ⟨depth_bad_float c d hcf h, torgb_bad_float c d hcf h,
    toyuv_bad_float c d hcf h, bm3d_bad_float c d hcf h⟩⟩

/-- C6 witness: depth 17 on a 1920x1080 YUV clip is rejected by all four
functions with "17-bit integer output is not supported!". -/
theorem C6_witness :
    (yuvClipW 1920 1080).format.color_family = CF.YUV ∧
    ((17 : Int) < 8 ∨ (16 < (17 : Int) ∧ (17 : Int) < 32)) ∧
    Depth (yuvClipW 1920 1080) (some 17) none none none none none none none none none =
      .error "Depth: 17-bit integer output is not supported!" ∧
    BM3D (yuvClipW 1920 1080) none none none none none none none none none none none
      none none (some 17) none none none none none none none none none none none none
      none none none none none none none none none none none none none none none none
      none none none none none none none none =
      .error "BM3D: 17-bit integer output is not supported!" := by
  have h := (C6_invalid_depth_fails_before_engine (yuvClipW 1920 1080) 17 (by decide)).1 (by norm_num)
  exact ⟨by decide, by norm_num, h.1, h.2.2.2⟩


/-- C7 (code evaluation at the failing input): converting a 1920x1080 Gray
clip to 4:2:0 YUV builds the neutral chroma plane (value 128 for 8-bit
integer) as a 960x960 blank clip: the code divides input.width by BOTH
subsampling factors (heightc = input.width // dVSubS), so the chroma height
is 960, not the 540 the claim (clip height / vertical factor) requires. -/
theorem C7_gray_chroma_height_uses_width :
    ToYUV gray8Clip none (some "420") none none none none none none none none none
      none none none none none =
      .ok { format := { color_family := CF.YUV, bits_per_sample := 8, sample_type := 0,
                        subsampling_w := 0, subsampling_h := 0 },
            width := 1920, height := 1080,
            pix := Pix.shufflePlanes
              [Pix.source 0,
               Pix.blankClip (Pix.source 0) 960 960 128,
               Pix.blankClip (Pix.source 0) 960 960 128] [0, 0, 0] CF.YUV,
            props := { emptyProps with colorRange := some 1 } } ∧
    (960 : Int) ≠ 540 := ⟨rfl, by decide⟩

/-- C8 counterexample: on the LEGACY/fmtc backend an explicit dither
"random" with amplitude 0 falls back to dmode 3 (error_diffusion), not to
"none"/mode 1 as the claim states. -/
theorem C8_counterexample :
    (Depth (yuvBits 8) (some 10) none none none (some (DitherV.s "random"))
      (some false) none (some 0) none none).map ditherModeOf =
      .ok (some (DitherV.i 3)) ∧
    (DitherV.i 3 : DitherV) ≠ DitherV.i 1 := ⟨rfl, by decide⟩

/-- C8 (amended): the amplitude-based fallback of "random" only applies to
the STANDARD backend when the dither was given as integer code 1 or 2
(random iff ampn>0, else "none"); an explicit string "random" is passed to
z.Depth unchanged whatever the amplitude; on the LEGACY backend, "random"
becomes mode 1 with ampn defaulted to 1 when ampn is unset, mode 1 when
ampn>0, and mode 3 (error_diffusion) when ampn<=0, while integer codes pass
through unchanged. -/
theorem C8_random_dither_translation :
    (∀ (a : Rat) (sb : Nat) (db : Int) (fs fd : Bool),
      depthDitherResolve (some (DitherV.i 1)) (some a) true sb db fs fd =
        .ok (DitherV.s (if 0 < a then "random" else "none"), some a)) ∧
    (∀ (sb : Nat) (db : Int) (fs fd : Bool),
      depthDitherResolve (some (DitherV.i 1)) none true sb db fs fd =
        .ok (DitherV.s "none", none)) ∧
    (∀ (a : Rat) (sb : Nat) (db : Int) (fs fd : Bool),
      depthDitherResolve (some (DitherV.i 2)) (some a) true sb db fs fd =
        .ok (DitherV.s (if 0 < a then "random" else "none"), some a)) ∧
    (∀ (o : Option Rat) (sb : Nat) (db : Int) (fs fd : Bool),
      depthDitherResolve (some (DitherV.s "random")) o true sb db fs fd =
        .ok (DitherV.s "random", o)) ∧
    (∀ (sb : Nat) (db : Int) (fs fd : Bool),
      depthDitherResolve (some (DitherV.s "random")) none false sb db fs fd =
        .ok (DitherV.i 1, some 1)) ∧
    (∀ (a : Rat) (sb : Nat) (db : Int) (fs fd : Bool),
      depthDitherResolve (some (DitherV.s "random")) (some a) false sb db fs fd =
        .ok (DitherV.i (if 0 < a then 1 else 3), some a)) ∧
    (∀ (a : Rat) (sb : Nat) (db : Int) (fs fd : Bool),
      depthDitherResolve (some (DitherV.i 1)) (some a) false sb db fs fd =
        .ok (DitherV.i 1, some a)) := by
  have hr : strLower "random" = "random" := rfl
  refine ⟨?_, ?_, ?_, ?_, ?_, ?_, ?_⟩
  · intro a sb db fs fd
    by_cases ha : (0 : Rat) < a <;>
      simp [depthDitherResolve, bind, Except.bind, pure, Except.pure, ha, hr]
  · intros; rfl
  · intro a sb db fs fd
    by_cases ha : (0 : Rat) < a <;>
      simp [depthDitherResolve, bind, Except.bind, pure, Except.pure, ha, hr]
  · intros; rfl
  · intros; rfl
  · intro a sb db fs fd
    by_cases ha : (0 : Rat) < a <;>
      simp [depthDitherResolve, bind, Except.bind, pure, Except.pure, ha, hr]
  · intros; rfl


/-- Converting `gray16Clip` to its own internal format is a skip that only
tags the range property. -/
theorem depth_gray16_internal :
    Depth gray16Clip (some 16) (some 0) (some true) (some true) none none none none
      none none = .ok gray16Tagged := rfl

/-- For any clip of 16-bit integer Gray format, the final full-to-full
16-bit depth conversion of BM3D is a skip that only tags the range
property. -/
theorem depth_skip_16int_full (flt : Clip) (hf : flt.format = gray16Clip.format) :
    Depth flt (some 16) (some 0) (some true) (some true) none none none none none
      none = .ok { flt with props := { flt.props with colorRange := some 0 } } := by
  unfold Depth
  dsimp only
  rw [hf]
  simp only [gray16Clip, testClip, bind, Except.bind, pure, Except.pure,
    resolveTargetFormat, depthDitherResolve, depthDitherDefault, depthUseZResolve,
    depthAmpoResolve, reduceIte, reduceCtorEq]
  rw [show SetColorSpace flt none (some (PropArg.set 0)) none none none =
    .ok { flt with props := { flt.props with colorRange := some 0 } } from rfl]
  simp [hf, gray16Clip, testClip]

/-- The final-estimate loop preserves any clip format its step function
preserves. -/
theorem finalEstimateLoop_format (step : Clip → Clip) (F : VFormat)
    (hstep : ∀ c, (step c).format = F) (n : Nat) :
    ∀ (flt : Clip), flt.format = F → (finalEstimateLoop step n flt).format = F := by
  induction n with
  | zero => intro flt hf; exact hf
  | succ k ih => intro flt hf; exact ih (step flt) (hstep flt)


/-- C9: for every refine count r >= 0, BM3D on a Gray clip performs the
final estimate exactly r times as `finalEstimateLoop step r.toNat basic`,
where every step filters the ORIGINAL internal clip (`gray16Tagged`,
passed as the clip argument of bm3d.Basic/bm3d.VBasic) and passes the
previous estimate only as the `ref` argument; this holds for both the
spatial (radius 0, bm3d.Basic) and the temporal (radius 1,
bm3d.VBasic+VAggregate) branches. -/
theorem C9_final_estimate_refines_by_reference (r : Int) (hr : 0 ≤ r) :
    (BM3D gray16Clip none none none none none (some r) none none none none (some true)
      none none none none none none none none none none none none none none none none
      none none none none none none none none none none none none none none none none
      none none none none none none none =
      .ok (let flt := finalEstimateLoop
            (fun f => bm3dBasicCall gray16Tagged (some f) (some "fast") [5, 0, 0]
              none none none none none none none 100) r.toNat
            (bm3dBasicCall gray16Tagged none (some "fast") [5, 0, 0]
              none none none none none none none 100);
           { flt with props := { flt.props with colorRange := some 0 } })) ∧
    (BM3D gray16Clip none (some 1) none none none (some r) none none none none
      (some true) none none none none none none none none none none none none none none
      none none none none none none none none none none none none none none none none
      none none none none none none none none none =
      .ok (let flt := finalEstimateLoop
            (fun f => bm3dVAggregateCall (bm3dVBasicCall gray16Tagged (some f)
              (some "fast") [5, 0, 0] 1 none none none none none none none none
              none none 100) 1 0) r.toNat
            (bm3dVAggregateCall (bm3dVBasicCall gray16Tagged none (some "fast")
              [5, 0, 0] 1 none none none none none none none none none none 100) 1 0);
           { flt with props := { flt.props with colorRange := some 0 } })) := by
  have h1 : ¬ (r < 0) := by omega
  constructor
  · unfold BM3D
    have hres : bm3dResolve gray16Clip none none none none none (some r) none none none none
      (some true) none none none none none none =
        .ok { matrixS := "709", fulls := true, pbitPS := 16, pSType := 0, cssR := "11",
              cd_cplace := none, sigma := [5, 0, 0], radius1 := 0, radius2 := 0,
              profile1 := "fast", profile2 := "fast", refine := r, output := 0,
              dbitPS := 16, dSType := 0, fulld := true } := by
      unfold bm3dResolve
      rw [show GetMatrix gray16Clip none (some true) false = .ok (MatVal.s "709") from rfl]
      simp only [bind, Except.bind, pure, Except.pure, bm3dSigmaResolve,
        checkPairedClip, resolveTargetFormat]
      rw [if_neg h1]
      rfl
    rw [hres]
    simp only [bind, Except.bind]
    unfold bm3dApply
    dsimp only
    simp only [Nat.cast_ofNat, Nat.cast_zero]
    rw [depth_gray16_internal]
    simp only [bind, Except.bind, pure, Except.pure,
      show gray16Clip.format.color_family = CF.GRAY from rfl]
    norm_num
    exact depth_skip_16int_full _
      (finalEstimateLoop_format
        (fun f => bm3dBasicCall gray16Tagged (some f) (some "fast") [5, 0, 0]
          none none none none none none none 100)
        gray16Clip.format (fun c => rfl) r.toNat
        (bm3dBasicCall gray16Tagged none (some "fast") [5, 0, 0]
          none none none none none none none 100) rfl)
  · unfold BM3D
    have hres : bm3dResolve gray16Clip none (some 1) none none none (some r) none none none none
          (some true) none none none none none none =
        .ok { matrixS := "709", fulls := true, pbitPS := 16, pSType := 0, cssR := "11",
              cd_cplace := none, sigma := [5, 0, 0], radius1 := 1, radius2 := 1,
              profile1 := "fast", profile2 := "fast", refine := r, output := 0,
              dbitPS := 16, dSType := 0, fulld := true } := by
      unfold bm3dResolve
      rw [show GetMatrix gray16Clip none (some true) false = .ok (MatVal.s "709") from rfl]
      simp only [bind, Except.bind, pure, Except.pure, bm3dSigmaResolve,
        checkPairedClip, resolveTargetFormat]
      rw [if_neg h1]
      rfl
    rw [hres]
    simp only [bind, Except.bind]
    unfold bm3dApply
    dsimp only
    simp only [Nat.cast_ofNat, Nat.cast_zero]
    rw [depth_gray16_internal]
    simp only [bind, Except.bind, pure, Except.pure,
      show gray16Clip.format.color_family = CF.GRAY from rfl]
    norm_num
    exact depth_skip_16int_full _
      (finalEstimateLoop_format
        (fun f => bm3dVAggregateCall (bm3dVBasicCall gray16Tagged (some f)
          (some "fast") [5, 0, 0] 1 none none none none none none none none
          none none 100) 1 0)
        gray16Clip.format (fun c => rfl) r.toNat
        (bm3dVAggregateCall (bm3dVBasicCall gray16Tagged none (some "fast")
          [5, 0, 0] 1 none none none none none none none none none none 100) 1 0) rfl)

/-- C9 witness: the refinement chain at refine = 2 on the Gray clip. -/
theorem C9_witness :
    (0 : Int) ≤ 2 ∧
    BM3D gray16Clip none none none none none (some 2) none none none none (some true)
      none none none none none none none none none none none none none none none none
      none none none none none none none none none none none none none none none none
      none none none none none none none =
      .ok (let flt := finalEstimateLoop
            (fun f => bm3dBasicCall gray16Tagged (some f) (some "fast") [5, 0, 0]
              none none none none none none none 100) (2 : Int).toNat
            (bm3dBasicCall gray16Tagged none (some "fast") [5, 0, 0]
              none none none none none none none 100);
           { flt with props := { flt.props with colorRange := some 0 } }) :=
  ⟨by norm_num, (C9_final_estimate_refines_by_reference 2 (by norm_num)).1⟩

end Mvs
